import Mathlib

/-!
Verification of the light-playground tracing engine.

The Rust sources under `src/rust_lib/src/` are shallowly embedded below.
Rust `f32` fields carry only values that are compared, never computed with,
so they are embedded as `ℚ`; `u8`/`u64`/`usize` carry no arithmetic in the
code and are embedded as `Nat`.  Mutating methods (`&mut self`) become
state-passing functions returning the new state.  Side effects (thread
spawns, channel sends, trace/draw calls) are embedded as explicit action
traces.
-/

namespace LightPlayground

/- ### Data model, from `src/rust_lib/src/common/scene.rs` -/

/-- Embeds `Color { red, green, blue: u8 }` (scene.rs lines 41-45). -/
structure Color where
  red : Nat
  green : Nat
  blue : Nat
deriving DecidableEq, Repr

/-- Embeds `Material` (scene.rs lines 28-39): reflectance color, diffusion,
opacity and index of refraction.  The struct declaration imposes no
constraint on the field values. -/
structure Material where
  reflects : Color
  diffusion : ℚ
  opacity : ℚ
  indexOfRefraction : ℚ
deriving DecidableEq, Repr

/-- Embeds `Shape { Circle, ClosedPolygon }` (scene.rs lines 16-19). -/
inductive Shape where
  | Circle
  | ClosedPolygon
deriving DecidableEq, Repr

/-- Embeds `LightInteraction { Emitter(Color), Collider(Material) }`
(scene.rs lines 23-26). -/
inductive LightInteraction where
  | Emitter (c : Color)
  | Collider (m : Material)
deriving DecidableEq, Repr

/-- Embeds `Object { id: u64, shape, light_interaction }`
(scene.rs lines 8-12). -/
structure Object where
  id : Nat
  shape : Shape
  light_interaction : LightInteraction
deriving DecidableEq, Repr

/-- Embeds `Scene { objects: HashMap<u64, Object> }` (scene.rs lines 3-6);
the map is embedded as an association list keyed by the object id. -/
structure Scene where
  objects : List (Nat × Object)
deriving DecidableEq, Repr

/-- Modelled from the spec: `common::simulation` is referenced by
`tracer.rs` and `tracer/job.rs` but its source file is not under `src/`.
The spec gives `LightSegment = { start: Point2, end: Point2, color: Color }`;
`Point2` is a 2-d point. -/
structure Point2 where
  x : ℚ
  y : ℚ
deriving DecidableEq, Repr

/-- Modelled from the spec: one straight light-path fragment with start and
end points and a color (the `end` field is named `endPt` because `end` is a
Lean keyword). -/
structure LightSegment where
  start : Point2
  endPt : Point2
  color : Color
deriving DecidableEq, Repr

/- ### Job producer, from `src/rust_lib/src/tracer/job.rs` -/

/-- Embeds `Job { scene: Scene, segments_to_produce: usize }`
(job.rs lines 5-13). -/
structure Job where
  scene : Scene
  segments_to_produce : Nat
deriving DecidableEq, Repr

/-- Embeds `JobProducer {}` (job.rs line 16): the struct has no fields. -/
structure JobProducer where
deriving DecidableEq, Repr

/-- Embeds `JobProducer::new()` (job.rs lines 19-21). -/
def JobProducer.new : JobProducer := ⟨⟩

/-- Embeds `JobProducer::reset(&mut self, latest_scene: Scene)`
(job.rs line 23): the body is empty, the scene argument is dropped and the
producer state is unchanged. -/
def JobProducer.reset (p : JobProducer) (latest_scene : Scene) : JobProducer :=
  let _ := latest_scene
  p

/-- Embeds `JobProducer::take_job(&mut self) -> Option<Job>`
(job.rs lines 27-29): the body is `None`. -/
def JobProducer.take_job (p : JobProducer) : JobProducer × Option Job :=
  (p, none)

/- ### Duplicate tracer module, from `src/rust_lib/src/tracer.rs` -/

/-- Embeds `TraceJobInput { scene, segments_to_produce }`
(tracer.rs lines 9-17). -/
structure TraceJobInput where
  scene : Scene
  segments_to_produce : Nat
deriving DecidableEq, Repr

/-- Embeds `TraceJobOutput { segments: Vec<LightSegment> }`
(tracer.rs lines 20-22). -/
structure TraceJobOutput where
  segments : List LightSegment
deriving DecidableEq, Repr

/-- Embeds `TracerJobProducer {}` (tracer.rs line 25): no fields. -/
structure TracerJobProducer where
deriving DecidableEq, Repr

/-- Embeds `TracerJobProducer::new()` (tracer.rs lines 28-30). -/
def TracerJobProducer.new : TracerJobProducer := ⟨⟩

/-- Embeds `TracerJobProducer::reset` (tracer.rs line 32): empty body. -/
def TracerJobProducer.reset (p : TracerJobProducer) (latest_scene : Scene) :
    TracerJobProducer :=
  let _ := latest_scene
  p

/-- Embeds `TracerJobProducer::take_job` (tracer.rs lines 36-38): the body
is `None`. -/
def TracerJobProducer.take_job (p : TracerJobProducer) :
    TracerJobProducer × Option TraceJobInput :=
  (p, none)

/-- Embeds `trace(scene, segments_to_produce)` (tracer.rs lines 97-100):
`Vec::with_capacity(segments_to_produce)` allocates an empty vector and no
segment is ever pushed, so the output segment list is `[]`. -/
def trace (scene : Scene) (segments_to_produce : Nat) : TraceJobOutput :=
  let _ := scene
  let _ := segments_to_produce
  ⟨[]⟩

/-- `true` iff some object of the scene is an `Emitter`. -/
def sceneHasEmitter (s : Scene) : Bool :=
  s.objects.any fun pr =>
    match pr.2.light_interaction with
    | .Emitter _ => true
    | .Collider _ => false

/-- A concrete scene holding one red emitter circle, used as test input. -/
def sceneA : Scene :=
  ⟨[(7, ⟨7, .Circle, .Emitter ⟨255, 0, 0⟩⟩)]⟩

/-- The empty scene: no objects, hence no emitters. -/
def emptyScene : Scene := ⟨[]⟩

/- ### Stop channel, from `std::sync::mpsc::sync_channel(1)` as used in
`src/rust_lib/src/tracer/tracer.rs` lines 20, 43-49 and
`src/rust_lib/src/tracer.rs` lines 50, 73-79. -/

/-- State of the bounded stop channel created by `sync_channel(1)`:
the buffered messages (capacity 1) and whether the `SyncSender` half is
still alive. -/
structure ChannelState where
  buffered : List Bool
  senderAlive : Bool
deriving DecidableEq, Repr

/-- The bound passed to `sync_channel` in `Tracer::new`: 1. -/
def syncChannelBound : Nat := 1

/-- Channel as returned by `sync_channel(1)`: empty buffer, live sender. -/
def freshChannel : ChannelState := ⟨[], true⟩

/-- Result of `Receiver::try_recv`. -/
inductive RecvResult where
  | ok (v : Bool)
  | errEmpty
  | errDisconnected
deriving DecidableEq, Repr

/-- Semantics of `Receiver::try_recv` on the stop channel: a buffered
message is returned even if the sender is gone; an empty buffer yields
`Empty` while the sender lives and `Disconnected` once it is dropped. -/
def tryRecv (ch : ChannelState) : RecvResult × ChannelState :=
  match ch.buffered with
  | v :: rest => (.ok v, ⟨rest, ch.senderAlive⟩)
  | [] => if ch.senderAlive then (.errEmpty, ch) else (.errDisconnected, ch)

/-- Semantics of `SyncSender::send` on a channel with bound 1: the call
blocks exactly while the buffer is full. -/
def sendWouldBlock (ch : ChannelState) : Bool :=
  decide (syncChannelBound ≤ ch.buffered.length)

/-- Effect of a completed `send(true)`: the message joins the buffer. -/
def sendStop (ch : ChannelState) : ChannelState :=
  ⟨ch.buffered ++ [true], ch.senderAlive⟩

/-- Effect of dropping the `Tracer` handle (and with it `stop_sender`)
without calling `stop()`: the sender half disconnects; nothing was sent so
the buffer is unchanged. -/
def dropSender (ch : ChannelState) : ChannelState :=
  ⟨ch.buffered, false⟩

/- ### Tracer worker loop, from `src/rust_lib/src/tracer.rs` lines 70-100
(`run_tracer` and `trace`); `src/rust_lib/src/tracer/tracer.rs` lines 40-65
is identical except that its `Some(job)` arm is an empty TODO. -/

/-- Observable side effects of one worker-loop iteration. -/
inductive WorkerAction where
  | calledTrace
  | openedSession
  | committedSegments
deriving DecidableEq, Repr

/-- Outcome of one iteration of the `run_tracer` loop. -/
inductive StepResult where
  | exited
  | panicked (msg : String)
  | continued (actions : List WorkerAction)
deriving DecidableEq, Repr

/-- The panic message at tracer.rs line 76 / tracer/tracer.rs line 46. -/
def disconnectedPanicMsg : String :=
  "Disconnected stop receiver. Maybe thread wasn\x27t stopped?"

/-- Embeds the `match trace_job` body of `run_tracer` (tracer.rs lines
86-93): on `None` the loop just continues; on `Some(job)` it calls
`trace(&job.scene, job.segments_to_produce)`, discards the returned
`TraceJobOutput`, and continues — no surface session is opened and nothing
is committed. -/
def runTracerBody (trace_job : Option TraceJobInput) : List WorkerAction :=
  match trace_job with
  | none => []
  | some job =>
    let _ := trace job.scene job.segments_to_produce
    [.calledTrace]

/-- Embeds one full iteration of `run_tracer` (tracer.rs lines 71-94):
poll the stop channel with `try_recv`; `Ok` exits the loop, `Disconnected`
panics, `Empty` takes a job under the producer lock and runs the body. -/
def runTracerStep (ch : ChannelState) (p : TracerJobProducer) :
    StepResult × ChannelState × TracerJobProducer :=
  match tryRecv ch with
  | (.ok _, ch2) => (.exited, ch2, p)
  | (.errDisconnected, ch2) => (.panicked disconnectedPanicMsg, ch2, p)
  | (.errEmpty, ch2) =>
    let (p2, tj) := p.take_job
    (.continued (runTracerBody tj), ch2, p2)

/- ### Tracer stop protocol, from `src/rust_lib/src/tracer/tracer.rs`
lines 17-37 (identical in tracer.rs lines 47-67): `Tracer::new` spawns the
worker thread over a `sync_channel(1)`; `Tracer::stop(self)` is exactly
`self.stop_sender.send(true).unwrap()` — it never joins the thread. -/

/-- Joint state of a stop() caller and the worker thread it signals. -/
structure StopSystem where
  ch : ChannelState
  workerExited : Bool
  stopReturned : Bool
deriving DecidableEq, Repr

/-- State right after `Tracer::new`: fresh channel, worker running,
`stop()` not yet called. -/
def initialStopSystem : StopSystem :=
  ⟨freshChannel, false, false⟩

/-- The caller's `stop()` step: `send(true)` completes (and `stop`
returns, since `send` is its whole body) as soon as the bound-1 buffer has
room, independent of the worker's state; `none` models the caller staying
blocked in `send` while the buffer is full. -/
def callerStopStep (s : StopSystem) : Option StopSystem :=
  if sendWouldBlock s.ch then none
  else some ⟨sendStop s.ch, s.workerExited, true⟩

/-- The worker's polling step: when `try_recv` yields a message the worker
returns from `run_tracer` and the thread exits. -/
def workerPollStep (s : StopSystem) : StopSystem :=
  match tryRecv s.ch with
  | (.ok _, ch2) => ⟨ch2, true, s.stopReturned⟩
  | (_, ch2) => ⟨ch2, s.workerExited, s.stopReturned⟩

/- ### Simulator, from `src/rust_lib/src/simulator.rs` lines 8-22 and
`src/rust_lib/src/simulator/mod.rs` lines 3-13, plus the `CpuSurface`
backend from `src/rust_lib/src/surface/cpu.rs`. -/

/-- Embeds `CpuSurface {}` (cpu.rs line 3). -/
structure CpuSurface where
deriving DecidableEq, Repr

/-- Embeds `CpuSurface::new()` (cpu.rs lines 6-8). -/
def CpuSurface.new : CpuSurface := ⟨⟩

/-- Observable side effects of `Simulator::new`. -/
inductive SimAction where
  | newJobProducer
  | spawnTracer
  | stopTracer
deriving DecidableEq, Repr

/-- Embeds `Simulator<TSurface> { surface }` (simulator.rs lines 8-10). -/
structure Simulator (σ : Type) where
  surface : σ

/-- Embeds `Simulator::new(surface)` (simulator.rs lines 13-21) as a value
plus its action trace: it creates the shared `JobProducer` mutex, calls
`Tracer::new` twice (each spawns a worker thread), then immediately calls
`stop()` on both tracers, and returns a `Simulator` storing the surface. -/
def Simulator.new (surface : σ) : Simulator σ × List SimAction :=
  (⟨surface⟩,
    [.newJobProducer, .spawnTracer, .spawnTracer, .stopTracer, .stopTracer])

/-- Embeds the second `Simulator` (simulator/mod.rs lines 3-5), which only
stores its drawing surface. -/
structure SimulatorMod (τ : Type) where
  draw_surface : τ

/-- Embeds `Simulator::new` of simulator/mod.rs (lines 8-12): stores the
surface and performs no other action — no producer, no tracers. -/
def SimulatorMod.new (draw_surface : τ) : SimulatorMod τ × List SimAction :=
  (⟨draw_surface⟩, [])

/-- Number of occurrences of an action in a trace. -/
def countAction (a : SimAction) (as : List SimAction) : Nat :=
  as.count a

/-- Tracers spawned and not yet stopped at the end of a trace. -/
def runningTracers (as : List SimAction) : Nat :=
  countAction .spawnTracer as - countAction .stopTracer as

/- ### Job-producer operation sequences, for claim C6. -/

/-- One linearized operation on the shared `JobProducer`. -/
inductive ProducerOp where
  | resetOp (s : Scene)
  | takeJobOp
deriving DecidableEq, Repr

/-- Runs a linearized sequence of producer operations (any interleaving of
`reset` and `take_job` calls serialized by the mutex) and collects every
job that a `take_job` call returned. -/
def runOps (p : JobProducer) : List ProducerOp → JobProducer × List Job
  | [] => (p, [])
  | .resetOp s :: rest => runOps (p.reset s) rest
  | .takeJobOp :: rest =>
    let (p2, j) := p.take_job
    let (p3, js) := runOps p2 rest
    (p3, j.toList ++ js)

/-- All jobs returned across a sequence of operations on a fresh producer. -/
def returnedJobs (ops : List ProducerOp) : List Job :=
  (runOps JobProducer.new ops).2

/-- The scenes passed to `reset` across a sequence of operations. -/
def resetScenes (ops : List ProducerOp) : List Scene :=
  ops.filterMap fun op =>
    match op with
    | .resetOp s => some s
    | .takeJobOp => none

/- ### Scene construction validation, for claim C7. -/

/-- `true` iff the material's diffusion and opacity both lie in [0,1]. -/
def materialParamsInRange (m : Material) : Bool :=
  decide (0 ≤ m.diffusion) && decide (m.diffusion ≤ 1) &&
    decide (0 ≤ m.opacity) && decide (m.opacity ≤ 1)

/-- `true` iff some collider object of the scene has a material whose
diffusion or opacity lies outside [0,1]. -/
def sceneHasOutOfRangeMaterial (s : Scene) : Bool :=
  s.objects.any fun pr =>
    match pr.2.light_interaction with
    | .Emitter _ => false
    | .Collider m => !(materialParamsInRange m)

/-- The opacities of every collider material in the scene. -/
def sceneOpacities (s : Scene) : List ℚ :=
  s.objects.filterMap fun pr =>
    match pr.2.light_interaction with
    | .Emitter _ => none
    | .Collider m => some m.opacity

/-- A scene built with the only construction the code offers (plain struct
literals): one collider circle whose material has the given opacity. -/
def mkOpacityScene (q : ℚ) : Scene :=
  ⟨[(1, ⟨1, .Circle, .Collider ⟨⟨255, 255, 255⟩, 0, q, 1⟩⟩)]⟩

/-- A concrete scene whose collider material has opacity 2 ∉ [0,1]. -/
def badScene : Scene := mkOpacityScene 2

/-- A concrete job, used to exercise the worker body's `Some` arm. -/
def jobA : TraceJobInput := ⟨sceneA, 10⟩

end LightPlayground

namespace LightPlayground

/- ### Claim C1 -/

/-- C1 counterexample: on the code, `take_job()` called immediately after
`reset(sceneA)` (the moment the claim calls a non-exhausted budget, since
`reset` is said to refill it) returns `None`, not `Some` job carrying
`sceneA` — so `take_job` does not resume returning `Some` after a `reset`. -/
theorem C1_counterexample_take_job_after_reset_none :
    ¬ ∃ j : Job, ((JobProducer.new.reset sceneA).take_job).2 = some j ∧
      j.scene = sceneA := by
  rintro ⟨j, hj, -⟩
  simp [JobProducer.take_job] at hj

/-- C1 amended: `JobProducer` (and the duplicate `TracerJobProducer`) is a
stateless stub: `reset` discards its scene and leaves the producer
unchanged, and `take_job` always returns `None`, before and after any
`reset`; no outstanding-work budget exists and `take_job` never returns
`Some`. -/
theorem C1_amended_take_job_always_none :
    ∀ (p : JobProducer) (q : TracerJobProducer) (s : Scene),
      p.reset s = p ∧ (p.take_job).2 = none ∧
      q.reset s = q ∧ (q.take_job).2 = none := by
  intro p q s
  exact ⟨rfl, rfl, rfl, rfl⟩

/- ### Claims C4 and C9 -/

/-- C4: `trace(scene, k)` returns at most `k` light segments, and returns
zero segments for any scene containing no emitter objects. -/
theorem C4_trace_at_most_k_and_zero_without_emitters :
    ∀ (s : Scene) (k : Nat),
      (trace s k).segments.length ≤ k ∧
      (sceneHasEmitter s = false → (trace s k).segments.length = 0) := by
  intro s k
  exact ⟨Nat.zero_le k, fun _ => rfl⟩

/-- C4 witness: the empty scene has no emitter, and `trace` on it with
budget 3 produces at most 3 and in fact zero segments. -/
theorem C4_witness_empty_scene :
    sceneHasEmitter emptyScene = false ∧
    (trace emptyScene 3).segments.length ≤ 3 ∧
    (trace emptyScene 3).segments.length = 0 :=
  ⟨rfl, (C4_trace_at_most_k_and_zero_without_emitters emptyScene 3).1,
    (C4_trace_at_most_k_and_zero_without_emitters emptyScene 3).2 rfl⟩

/-- C9: `trace` returns exactly zero segments for every scene and every
budget, including scenes that do contain emitters (such as `sceneA`). -/
theorem C9_trace_always_empty :
    (∀ (s : Scene) (k : Nat), (trace s k).segments = []) ∧
    sceneHasEmitter sceneA = true ∧
    (trace sceneA 10).segments = [] := by
  exact ⟨fun s k => rfl, rfl, rfl⟩

/- ### Claim C2 -/

/-- C2 counterexample: `Simulator::new` does spawn 2 tracers and store the
surface, but it also calls `stop()` on both before returning, so zero (not
2) tracers are running when `new` returns. -/
theorem C2_counterexample_new_stops_tracers :
    countAction .spawnTracer (Simulator.new CpuSurface.new).2 = 2 ∧
    countAction .stopTracer (Simulator.new CpuSurface.new).2 = 2 ∧
    runningTracers (Simulator.new CpuSurface.new).2 = 0 ∧
    ¬ runningTracers (Simulator.new CpuSurface.new).2 = 2 := by
  refine ⟨by decide, by decide, by decide, by decide⟩

/-- C2 amended: `Simulator::new(surface)` creates the shared job producer,
spawns exactly 2 tracers bound to it, then immediately stops both tracers
before returning, and stores the surface; no tracer is left running when
`new` returns.  (The second `Simulator` in simulator/mod.rs stores the
surface and spawns no tracers at all.) -/
theorem C2_amended_new_spawns_then_stops :
    ∀ {σ τ : Type} (surface : σ) (draw_surface : τ),
      (Simulator.new surface).1.surface = surface ∧
      (Simulator.new surface).2 =
        [.newJobProducer, .spawnTracer, .spawnTracer,
          .stopTracer, .stopTracer] ∧
      runningTracers (Simulator.new surface).2 = 0 ∧
      (SimulatorMod.new draw_surface).1.draw_surface = draw_surface ∧
      (SimulatorMod.new draw_surface).2 = [] := by
  intro σ τ surface draw_surface
  exact ⟨rfl, rfl, rfl, rfl, rfl⟩

/- ### Claim C3 -/

/-- C3 (code bug): starting from a freshly constructed tracer (empty
bound-1 channel, worker running), the caller's `stop()` — whose whole body
is `send(true)` — does not block (the buffer has room) and completes in one
step, reaching a state where `stop` has returned but the worker thread has
not exited; `stop` performs no join, so it returns before the worker
terminates, contradicting the doc comments at tracer/tracer.rs lines 20 and
32-33. -/
theorem C3_stop_returns_before_worker_exit :
    sendWouldBlock initialStopSystem.ch = false ∧
    (∃ s : StopSystem, callerStopStep initialStopSystem = some s ∧
      s.stopReturned = true ∧ s.workerExited = false ∧
      workerPollStep s = ⟨⟨[], true⟩, true, true⟩) := by
  refine ⟨by decide, ⟨⟨⟨[true], true⟩, false, true⟩, by decide, rfl, rfl, by decide⟩⟩

/- ### Claim C5 -/

/-- C5 counterexample: when the worker-loop body receives `Some(jobA)`, its
action trace is exactly `[calledTrace]` — it never opens a surface session
and never commits segments, so the compute-trace → open-session → commit
chain the claim describes does not happen. -/
theorem C5_counterexample_no_session_commit :
    runTracerBody (some jobA) = [.calledTrace] ∧
    ¬ (WorkerAction.openedSession ∈ runTracerBody (some jobA) ∧
       WorkerAction.committedSegments ∈ runTracerBody (some jobA)) := by
  refine ⟨rfl, by decide⟩

/-- C5 amended: whenever the worker loop of tracer.rs receives `Some(job)`
from `take_job()`, it calls `trace` on the job's scene and budget and
discards the output; it opens no surface session and commits nothing.  (In
tracer/tracer.rs the `Some` arm is an empty TODO.) -/
theorem C5_amended_body_only_traces :
    ∀ j : TraceJobInput,
      runTracerBody (some j) = [.calledTrace] ∧
      (WorkerAction.openedSession ∈ runTracerBody (some j) → False) := by
  intro j
  exact ⟨rfl, by intro h; simp [runTracerBody] at h⟩

/- ### Claim C6 -/

/-- Across any operation sequence, the producer hands out no job at all. -/
theorem runOps_returns_no_job (p : JobProducer) (ops : List ProducerOp) :
    (runOps p ops).2 = [] := by
  induction ops generalizing p with
  | nil => rfl
  | cons op rest ih =>
    cases op with
    | resetOp s => simpa [runOps] using ih (p.reset s)
    | takeJobOp => simpa [runOps, JobProducer.take_job] using ih p

/-- C6: for every linearized sequence of `reset` and `take_job` calls,
every job returned by `take_job` carries a scene equal to the argument of
some single `reset` call (this holds vacuously: `take_job` always returns
`None`, so no job is ever returned and in particular none mixes two
snapshots). -/
theorem C6_jobs_from_single_reset :
    ∀ ops : List ProducerOp,
      (returnedJobs ops).all
        (fun j => (resetScenes ops).any (fun s => s == j.scene)) = true := by
  intro ops
  simp [returnedJobs, runOps_returns_no_job]

/- ### Claim C7 -/

/-- C7 counterexample: `badScene`, whose collider material has opacity 2,
is built with the only scene construction the code has (plain struct
literals — no validation exists anywhere in scene.rs), and the tracing
core's `trace` processes it normally: a scene with opacity outside [0,1]
does reach the tracing core. -/
theorem C7_counterexample_bad_opacity_reaches_trace :
    sceneHasOutOfRangeMaterial badScene = true ∧
    sceneOpacities badScene = [2] ∧
    (trace badScene 4).segments = [] := by
  refine ⟨by decide, by decide, rfl⟩

/-- C7 amended: scene construction performs no validation of material
parameters: for every opacity value `q` (in particular values outside
[0,1]) a scene containing a material with opacity `q` is constructible and
is accepted and processed by `trace`. -/
theorem C7_amended_no_construction_validation :
    ∀ (q : ℚ) (k : Nat),
      sceneOpacities (mkOpacityScene q) = [q] ∧
      (trace (mkOpacityScene q) k).segments = [] := by
  intro q k
  exact ⟨rfl, rfl⟩

/- ### Claim C10 -/

set_option maxRecDepth 100000 in
/-- C10: after the tracer handle is dropped without `stop()` being called
(sender disconnects, nothing buffered), the next iteration of the worker
loop sees `TryRecvError::Disconnected` from `try_recv` and panics with the
message beginning "Disconnected stop receiver" — the thread does not exit
cleanly. -/
theorem C10_dropped_handle_panics :
    (runTracerStep (dropSender freshChannel) TracerJobProducer.new).1 =
      .panicked disconnectedPanicMsg ∧
    disconnectedPanicMsg.data.take 26 = ("Disconnected stop receiver").data ∧
    ¬ (runTracerStep (dropSender freshChannel) TracerJobProducer.new).1 =
        .exited := by
  refine ⟨rfl, by decide, fun h => StepResult.noConfusion h⟩

end LightPlayground
